import Mathlib

/-!
# Verification of the BidDeed lien-discovery core

A shallow embedding, in Lean 4, of the lien extraction / classification /
priority-analysis engine of the `biddeed-conversational-ai` repository:

* `src/src/integrations/firecrawl_client.py` — `AcclaimWebClient`:
  `_parse_amount`, the HOA-keyword classification pass and the
  date sort of `_parse_liens`, `analyze_lien_priority`, and the
  error-handling shell of `search_liens`;
* `src/src/workflows/integrated_lien_discovery.py` —
  `IntegratedLienDiscovery._combine_results`.

Modelling conventions:
* Python `float` monetary amounts are modelled as `ℚ` with decimal
  literals taken exactly (`0.70` is `70/100`).
* A Python dict with fixed keys is a structure; a key that may be
  absent is an `Option` field or a field with the `.get` default.
* A recorded date (`MM/DD/YYYY`, read by `datetime.strptime` only to be
  compared) is modelled as its chronological key, a `Nat`: `strptime`
  is injective and monotone on the date strings the extraction regex
  admits, so ordering by the parsed date is ordering by this key.
* `list.sort(key=...)` is Python's stable ascending sort; it is
  modelled by `List.insertionSort` with the non-strict key order, which
  is proved below to be sorted, a permutation, and stable — the three
  properties that determine a stable sort uniquely.
-/

namespace BidDeed

/-! ## String helpers

Python's `str.replace(c, "")` for a one-character pattern removes every
occurrence of the character; `str.strip()` drops surrounding whitespace;
`str.upper()` upper-cases (ASCII suffices for every string these claims
touch); `kw in s` is substring containment. -/

def removeChar (c : Char) (s : String) : String :=
  String.mk (s.data.filter (fun d => d != c))

def isSpaceChar (c : Char) : Bool :=
  c = ' ' || c = '\t' || c = '\n' || c = '\r'

def trimStr (s : String) : String :=
  String.mk (((s.data.dropWhile isSpaceChar).reverse.dropWhile isSpaceChar).reverse)

def strUpper (s : String) : String :=
  String.mk (s.data.map Char.toUpper)

/-- `startsWith needle hay` over character lists. -/
def startsWithL : List Char → List Char → Bool
  | [], _ => true
  | _ :: _, [] => false
  | a :: as, b :: bs => a = b && startsWithL as bs

/-- `needle` occurs as a contiguous substring of `hay` (Python `needle in hay`). -/
def containsSubL (needle : List Char) : List Char → Bool
  | [] => startsWithL needle []
  | c :: t => startsWithL needle (c :: t) || containsSubL needle t

def containsSub (hay needle : String) : Bool :=
  containsSubL needle.data hay.data

/-! ## Amount parsing — `AcclaimWebClient._parse_amount`

```python
def _parse_amount(self, amount_str: str) -> float:
    try:
        cleaned = amount_str.replace(',', '').replace('$', '').strip()
        return float(cleaned)
    except (ValueError, AttributeError):
        return 0.0
```

`float(cleaned)` is modelled by `parseFloatQ`: optional sign, then a
decimal mantissa (digits, or digits-dot-digits with at least one digit
on one side), then an optional `e`/`E` exponent; the whole string must
be consumed. (`float` also accepts `inf`/`nan` spellings; no monetary
string takes that form and no claim depends on them.) A string the
grammar rejects raises `ValueError` in Python, i.e. parses to `none`
here, and `_parse_amount` then yields `0`. -/

def isDigitChar (c : Char) : Bool := '0' ≤ c && c ≤ '9'

def digitsVal (l : List Char) : Nat :=
  l.foldl (fun a c => a * 10 + (c.toNat - 48)) 0

/-- Consume leading digits: (value so far, digits read, rest). -/
def lexDigits : List Char → Nat → Nat → Nat × Nat × List Char
  | [], acc, n => (acc, n, [])
  | c :: t, acc, n =>
    if isDigitChar c then lexDigits t (acc * 10 + (c.toNat - 48)) (n + 1)
    else (acc, n, c :: t)

/-- Decimal mantissa: its value and the unread rest, or `none`. -/
def parseMantissa (l : List Char) : Option (ℚ × List Char) :=
  match lexDigits l 0 0 with
  | (ip, ni, rest) =>
    match rest with
    | '.' :: r2 =>
      match lexDigits r2 0 0 with
      | (fp, nf, r3) =>
        if ni = 0 && nf = 0 then none
        else some ((ip : ℚ) + (fp : ℚ) / (10 : ℚ) ^ nf, r3)
    | _ => if ni = 0 then none else some ((ip : ℚ), rest)

/-- Exponent digits after `e`/`E`: optional sign then at least one digit. -/
def parseExpDigits (l : List Char) : Option Int :=
  match l with
  | '+' :: t => if !t.isEmpty && t.all isDigitChar then some (digitsVal t : Int) else none
  | '-' :: t => if !t.isEmpty && t.all isDigitChar then some (-(digitsVal t : Int)) else none
  | t => if !t.isEmpty && t.all isDigitChar then some (digitsVal t : Int) else none

def parseAfterSign (l : List Char) : Option ℚ :=
  match parseMantissa l with
  | none => none
  | some (m, rest) =>
    match rest with
    | [] => some m
    | 'e' :: t => (parseExpDigits t).map (fun e => m * (10 : ℚ) ^ e)
    | 'E' :: t => (parseExpDigits t).map (fun e => m * (10 : ℚ) ^ e)
    | _ => none

/-- Python `float(s)` on an already-stripped string, as an exact rational. -/
def parseFloatQ (s : String) : Option ℚ :=
  match s.data with
  | '+' :: t => parseAfterSign t
  | '-' :: t => (parseAfterSign t).map (fun q => -q)
  | t => parseAfterSign t

/-- The cleaning step of `_parse_amount`, in the source's order. -/
def cleanAmount (s : String) : String :=
  trimStr (removeChar '$' (removeChar ',' s))

def parse_amount (s : String) : ℚ :=
  (parseFloatQ (cleanAmount s)).getD 0

/-! ## Lien records — `AcclaimWebClient._parse_liens`

A record dict built from one matched line of the scraped markdown:
`type`, `instrument_number`, `book`, `page`, `grantor` (creditor),
`grantee` (debtor), `recorded_date`, `amount`, then annotated with
`is_hoa` (and, for HOA records, a `warning` text), and later with
`priority_position` by `analyze_lien_priority`. Keys absent until the
annotation passes run are fields with their pre-annotation defaults. -/

structure PLien where
  type : String
  instrument_number : String := ""
  book : String := ""
  page : String := ""
  grantor : String := ""
  grantee : String := ""
  recorded_date : Nat := 0
  amount : ℚ := 0
  is_hoa : Bool := false
  warning : Option String := none
  priority_position : Nat := 0
deriving DecidableEq

/-- The keyword set of the HOA-detection pass (source order). -/
def hoaKeywords : List String :=
  ["HOMEOWNER", "HOA", "ASSOCIATION", "CONDO", "COMMUNITY"]

/-- `any(keyword in lien['grantor'].upper() for keyword in [...])`. -/
def isHoaCreditor (grantor : String) : Bool :=
  hoaKeywords.any fun kw => containsSub (strUpper grantor) kw

/-- One step of the HOA-detection loop of `_parse_liens`: sets
`is_hoa`, and on a hit also the advisory `warning` text. -/
def detectHoa (l : PLien) : PLien :=
  if isHoaCreditor l.grantor then
    { l with is_hoa := true,
             warning := some "HOA lien may wipe senior mortgages if foreclosed" }
  else
    { l with is_hoa := false }

/-- Key order of `liens.sort(key=lambda x: datetime.strptime(...))`. -/
def dateLE (a b : PLien) : Prop := a.recorded_date ≤ b.recorded_date

instance : DecidableRel dateLE := fun a b => Nat.decLe a.recorded_date b.recorded_date
instance : IsTotal PLien dateLE := ⟨fun a b => Nat.le_total a.recorded_date b.recorded_date⟩
instance : IsTrans PLien dateLE := ⟨fun _ _ _ h₁ h₂ => Nat.le_trans h₁ h₂⟩

/-- The date sort at the end of `_parse_liens`: Python's `list.sort` is a
stable ascending sort, realized here by insertion sort on the non-strict
key order (sortedness, permutation and stability are proved below). -/
def sortLiens (liens : List PLien) : List PLien :=
  List.insertionSort dateLE liens

/-! ## Priority analysis — `AcclaimWebClient.analyze_lien_priority` -/

/-- A warning dict of `analyze_lien_priority`: an
`HOA_FORECLOSURE_RISK` entry carries the record (key `lien`), a
`MULTIPLE_MORTGAGES` entry carries the mortgage count (key `count`);
neither carries a severity key.  The `message` f-string repeats the
grantor resp. the count and is display-only. -/
structure AWarning where
  wtype : String
  lien : Option PLien := none
  count : Option Nat := none
deriving DecidableEq

/-- The `encumbrance_summary` sub-dict. -/
structure EncSummary where
  total : ℚ
  first_mortgage : ℚ
  other_liens : ℚ
deriving DecidableEq

structure Analysis where
  total_liens : Nat
  total_encumbrance : ℚ
  first_position : Option PLien
  hoa_liens : List PLien
  mortgages : List PLien
  judgments : List PLien
  warnings : List AWarning
  encumbrance_summary : Option EncSummary
deriving DecidableEq

namespace Analyze

/-- `lien['priority_position'] = idx + 1` over `enumerate(liens)`,
written with an explicit start index for the proofs. -/
def rankFrom (n : Nat) : List PLien → List PLien
  | [] => []
  | x :: t => { x with priority_position := n + 1 } :: rankFrom (n + 1) t

/-- The records as the categorisation loop leaves them. -/
def ranked (liens : List PLien) : List PLien := rankFrom 0 liens

/-- `sum(lien['amount'] for lien in liens)` — computed before the loop,
over records of every type. -/
def totalEncumbrance (liens : List PLien) : ℚ := (liens.map (·.amount)).sum

/-- `first_position` is assigned inside the `MTG` branch, and only when
`idx == 0`: it is the head of the ranked list if that head is a
mortgage, and stays `None` otherwise. -/
def firstPosition (liens : List PLien) : Option PLien :=
  match ranked liens with
  | [] => none
  | x :: _ => if x.type == "MTG" then some x else none

/-- The `mortgages` bucket: the loop appends each `MTG` record in order. -/
def mortgages (liens : List PLien) : List PLien :=
  (ranked liens).filter (fun x => x.type == "MTG")

/-- The `hoa_liens` bucket: filled only in the `LIEN` branch, and only
when `lien.get('is_hoa')` is truthy. -/
def hoaLiens (liens : List PLien) : List PLien :=
  (ranked liens).filter (fun x => x.type == "LIEN" && x.is_hoa)

/-- The `judgments` bucket. -/
def judgments (liens : List PLien) : List PLien :=
  (ranked liens).filter (fun x => x.type == "JUDG")

def hoaWarning (l : PLien) : AWarning :=
  { wtype := "HOA_FORECLOSURE_RISK", lien := some l }

/-- The warnings list: one `HOA_FORECLOSURE_RISK` entry per HOA record
of type `LIEN`, appended in loop order, then one `MULTIPLE_MORTGAGES`
entry if more than two mortgages were bucketed. -/
def warnings (liens : List PLien) : List AWarning :=
  (hoaLiens liens).map hoaWarning ++
    (if (mortgages liens).length > 2 then
      [{ wtype := "MULTIPLE_MORTGAGES", count := some (mortgages liens).length }]
    else [])

/-- `analysis['first_position']['amount'] if analysis['first_position'] else 0`. -/
def firstPositionAmount (liens : List PLien) : ℚ :=
  ((firstPosition liens).map (·.amount)).getD 0

/-- The `encumbrance_summary` block, added only when the total is positive. -/
def encumbranceSummary (liens : List PLien) : Option EncSummary :=
  if totalEncumbrance liens > 0 then
    some { total := totalEncumbrance liens
           first_mortgage := firstPositionAmount liens
           other_liens := totalEncumbrance liens - firstPositionAmount liens }
  else none

end Analyze

/-- `AcclaimWebClient.analyze_lien_priority(liens)`.  The single Python
loop that ranks and buckets the records is decomposed into the
`Analyze.*` definitions above: the loop appends to each bucket in
traversal order, which is a filter of the ranked list per bucket. -/
def analyze_lien_priority (liens : List PLien) : Analysis :=
  { total_liens := liens.length
    total_encumbrance := Analyze.totalEncumbrance liens
    first_position := Analyze.firstPosition liens
    hoa_liens := Analyze.hoaLiens liens
    mortgages := Analyze.mortgages liens
    judgments := Analyze.judgments liens
    warnings := Analyze.warnings liens
    encumbrance_summary := Analyze.encumbranceSummary liens }

/-! ## Error shell — `AcclaimWebClient.search_liens`

Everything from the `self.firecrawl.scrape(...)` call onwards runs in a
`try` whose `except Exception` returns
`{"success": False, "error": str(e), "address": address}`.  The scrape
call is modelled as an `Except String ScrapeData` input (an exception,
or the response dict), and the markdown → records parsing — Python
`re`/`strptime` code that may itself raise, e.g. on a date like
`13/45/2023` — as a `String → Except String (List PLien)` parameter,
so the theorem holds for every behaviour of that parser. -/

structure ScrapeData where
  success : Bool
  error : Option String := none
  markdown : String := ""
  screenshot : Option String := none

/-- The dict `search_liens` returns; keys absent on a branch are
`Option` fields left `none` (`liens`/`total_liens` are only present on
success; `error` only on failure). -/
structure SearchResult where
  success : Bool
  address : String
  parcel_id : Option String := none
  error : Option String := none
  liens : Option (List PLien) := none
  total_liens : Option Nat := none
  screenshot : Option String := none
  raw_markdown : Option String := none

def search_liens (scrape : Except String ScrapeData)
    (parseLiens : String → Except String (List PLien))
    (address : String) (parcel_id : Option String) : SearchResult :=
  match (do
      let result ← scrape
      if result.success then
        let liens ← parseLiens result.markdown
        pure (Sum.inl (liens, result.markdown, result.screenshot))
      else
        pure (Sum.inr (result.error.getD "Unknown error")) :
      Except String ((List PLien × String × Option String) ⊕ String)) with
  | .error e =>
    { success := false, error := some e, address := address }
  | .ok (.inr msg) =>
    { success := false, error := some msg, address := address }
  | .ok (.inl (liens, markdown, shot)) =>
    { success := true
      address := address
      parcel_id := parcel_id
      liens := some liens
      total_liens := some liens.length
      screenshot := shot
      raw_markdown := some markdown }

/-! ## The integrated workflow — `IntegratedLienDiscovery._combine_results`

`src/src/workflows/integrated_lien_discovery.py`, lines 349–467.  The
BCPAO property record and the Firecrawl-agent lien documents are the
two inputs; the agent documents carry `document_type` and an `hoa_lien`
flag (read with `lien.get('hoa_lien', False)`), and `amount` read with
`lien.get('amount', 0)`. -/

structure AgentLien where
  document_type : String
  instrument_number : String := ""
  book : String := ""
  page : String := ""
  grantor : String := ""
  grantee : String := ""
  recorded_date : String := ""
  amount : ℚ := 0
  hoa_lien : Bool := false
deriving DecidableEq

/-- The successful `_get_owner_from_bcpao` record (numeric fields read
with `.get(key, 0)`). -/
structure Bcpao where
  parcel_id : String
  owner_name : String
  address : String
  assessed_value : ℚ := 0
  just_value : ℚ := 0
  living_area : ℚ := 0
  year_built : ℚ := 0
deriving DecidableEq

inductive Severity
  | critical
  | medium
  | high
deriving DecidableEq

/-- A warning dict of `_combine_results`: `type`, `severity`, and the
payload of its message — the `HOA_FORECLOSURE_RISK` entry carries the
list of HOA documents (key `hoa_liens`) and states their count, the
`COMPLEX_TITLE` entry states the mortgage count, the
`INSUFFICIENT_EQUITY` entry states the equity amount. -/
structure CWarning where
  wtype : String
  severity : Severity
  hoa_liens : List AgentLien := []
  msgCount : Nat := 0
  msgAmount : ℚ := 0
deriving DecidableEq

inductive Recommendation
  | SKIP
  | REVIEW
  | BID
deriving DecidableEq

structure LienSummary where
  total_liens : Nat
  total_encumbrance : ℚ
  mortgages : Nat
  other_liens : Nat
  judgments : Nat
  hoa_liens : Nat
  first_position : Option AgentLien
deriving DecidableEq

structure InvestmentAnalysis where
  arv : ℚ
  max_bid_equity_70pct : ℚ
  recommendation : Recommendation
  reason : String
  warnings : List CWarning
deriving DecidableEq

/-- `_search_acclaimweb`'s result as `_combine_results` reads it:
`success`, an `error` on failure, and on success the agent output,
whose `documents` list is read with `.get('documents', [])`. -/
structure AcclaimResult where
  success : Bool
  error : Option String := none
  agent_documents : List AgentLien := []

structure CombineOutput where
  success : Bool
  error : Option String := none
  bcpao_data : Option Bcpao := none
  acclaimweb_error : Option String := none
  property : Option Bcpao := none
  lien_analysis : Option LienSummary := none
  liens : List AgentLien := []
  investment_analysis : Option InvestmentAnalysis := none

namespace Combine

/-- `hoa_liens = [lien for lien in liens if lien.get('hoa_lien', False)]`
— every document type counts here. -/
def hoaLiens (liens : List AgentLien) : List AgentLien :=
  liens.filter (·.hoa_lien)

/-- `total_encumbrance = sum(lien.get('amount', 0) for lien in liens)`. -/
def totalEncumbrance (liens : List AgentLien) : ℚ :=
  (liens.map (·.amount)).sum

def mortgages (liens : List AgentLien) : List AgentLien :=
  liens.filter (fun l => l.document_type == "MTG")

def otherLiens (liens : List AgentLien) : List AgentLien :=
  liens.filter (fun l => l.document_type == "LIEN")

def judgments (liens : List AgentLien) : List AgentLien :=
  liens.filter (fun l => l.document_type == "JUDG")

/-- `first_position = mortgages[0] if mortgages else None`. -/
def firstPosition (liens : List AgentLien) : Option AgentLien :=
  (mortgages liens).head?

/-- `arv = max(assessed_value, just_value)`. -/
def arv (b : Bcpao) : ℚ := max b.assessed_value b.just_value

/-- `max_bid_equity = (arv * 0.70) - total_encumbrance - 10000`. -/
def maxBidEquity (b : Bcpao) (liens : List AgentLien) : ℚ :=
  arv b * (70 / 100) - totalEncumbrance liens - 10000

/-- The three warning appends of `_combine_results`, in source order;
each fires independently of the others. -/
def warnings (b : Bcpao) (liens : List AgentLien) : List CWarning :=
  (if hoaLiens liens ≠ [] then
    [{ wtype := "HOA_FORECLOSURE_RISK", severity := .critical,
       hoa_liens := hoaLiens liens, msgCount := (hoaLiens liens).length }]
  else []) ++
  (if (mortgages liens).length > 2 then
    [{ wtype := "COMPLEX_TITLE", severity := .medium,
       msgCount := (mortgages liens).length }]
  else []) ++
  (if maxBidEquity b liens < 10000 then
    [{ wtype := "INSUFFICIENT_EQUITY", severity := .high,
       msgAmount := maxBidEquity b liens }]
  else [])

/-- The recommendation ladder, in source order: HOA risk, then equity
floor, then mortgage count, else bid. -/
def recommendation (b : Bcpao) (liens : List AgentLien) : Recommendation :=
  if hoaLiens liens ≠ [] then .SKIP
  else if maxBidEquity b liens < 10000 then .SKIP
  else if (mortgages liens).length > 2 then .REVIEW
  else .BID

def reason (b : Bcpao) (liens : List AgentLien) : String :=
  if hoaLiens liens ≠ [] then "HOA foreclosure risk - may wipe senior mortgages"
  else if maxBidEquity b liens < 10000 then "Insufficient equity after liens"
  else if (mortgages liens).length > 2 then "Complex title - verify lien priority with attorney"
  else "Acceptable lien structure and equity position"

end Combine

/-- `IntegratedLienDiscovery._combine_results(bcpao_data, acclaimweb_result)`. -/
def combine_results (bcpao : Bcpao) (acclaim : AcclaimResult) : CombineOutput :=
  if acclaim.success = false then
    { success := false
      error := some "AcclaimWeb search failed"
      bcpao_data := some bcpao
      acclaimweb_error := acclaim.error }
  else
    let liens := acclaim.agent_documents
    { success := true
      property := some bcpao
      lien_analysis := some
        { total_liens := liens.length
          total_encumbrance := Combine.totalEncumbrance liens
          mortgages := (Combine.mortgages liens).length
          other_liens := (Combine.otherLiens liens).length
          judgments := (Combine.judgments liens).length
          hoa_liens := (Combine.hoaLiens liens).length
          first_position := Combine.firstPosition liens }
      liens := liens
      investment_analysis := some
        { arv := Combine.arv bcpao
          max_bid_equity_70pct := Combine.maxBidEquity bcpao liens
          recommendation := Combine.recommendation bcpao liens
          reason := Combine.reason bcpao liens
          warnings := Combine.warnings bcpao liens } }

/-! ## Spec-side definitions

Written from the specification's words (not from the source), for the
refinement statements comparing the code's behaviour with the spec. -/

/-- Spec §4.4 step 1–2: `arv = max(assessed_value, just_value)`,
`equity_estimate = arv * 0.70 − total_encumbrance − 10000`. -/
def specEquityEstimate (assessed just enc : ℚ) : ℚ :=
  max assessed just * (70 / 100) - enc - 10000

/-- Spec §4.4 step 3: the decision table, top-to-bottom, first match wins. -/
def specDecisionTable (priorityRiskCount : Nat) (equity : ℚ)
    (mortgageCount : Nat) : Recommendation :=
  if priorityRiskCount > 0 then .SKIP
  else if equity < 10000 then .SKIP
  else if mortgageCount > 2 then .REVIEW
  else .BID

/-- The amended C4 warning contract: one aggregate Critical
priority-risk warning when any record is flagged, one Medium
complex-title warning when more than two mortgages, one High
insufficient-equity warning when the equity estimate is below the
floor; independent, in that fixed order. -/
def specWarnings (riskRecs : List AgentLien) (mortgageCount : Nat)
    (equity : ℚ) : List CWarning :=
  (if riskRecs ≠ [] then
    [{ wtype := "HOA_FORECLOSURE_RISK", severity := .critical,
       hoa_liens := riskRecs, msgCount := riskRecs.length }]
  else []) ++
  (if mortgageCount > 2 then
    [{ wtype := "COMPLEX_TITLE", severity := .medium, msgCount := mortgageCount }]
  else []) ++
  (if equity < 10000 then
    [{ wtype := "INSUFFICIENT_EQUITY", severity := .high, msgAmount := equity }]
  else [])

/-! ## Concrete records used by counterexamples and witnesses -/

/-- An HOA lien record, recorded before `cexMortgage` (dates are
chronological keys), as `_parse_liens` leaves it. -/
def cexHoaLien : PLien :=
  { type := "LIEN", instrument_number := "2023-45678", book := "1235", page := "890",
    grantor := "SUNSET HOMEOWNERS ASSOCIATION", grantee := "JOHN DOE",
    recorded_date := 20230320, amount := 5000, is_hoa := true }

/-- A mortgage recorded after `cexHoaLien`. -/
def cexMortgage : PLien :=
  { type := "MTG", instrument_number := "2023-12345", book := "1234", page := "567",
    grantor := "WELLS FARGO BANK", grantee := "JOHN DOE",
    recorded_date := 20230401, amount := 250000 }

/-- A mortgage document whose creditor text carries an HOA keyword and
whose `hoa_lien`/`is_hoa` flag is true. -/
def cexHoaMortgage : PLien :=
  { type := "MTG", instrument_number := "2023-99999", book := "1236", page := "100",
    grantor := "COMMUNITY TRUST BANK", grantee := "JOHN DOE",
    recorded_date := 20230105, amount := 100000, is_hoa := true }

def cexDoc1 : AgentLien :=
  { document_type := "LIEN", instrument_number := "2023000456", book := "1235", page := "890",
    grantor := "SUNSET HOMEOWNERS ASSOCIATION INC", grantee := "JOHN DOE",
    recorded_date := "03/20/2023", amount := 5000, hoa_lien := true }

def cexDoc2 : AgentLien :=
  { document_type := "LIEN", instrument_number := "2023000789", book := "1236", page := "12",
    grantor := "PARKVIEW HOA", grantee := "JOHN DOE",
    recorded_date := "04/02/2023", amount := 3000, hoa_lien := true }

def cexBcpao : Bcpao :=
  { parcel_id := "2517790", owner_name := "JOHN DOE", address := "4127 ARLINGTON AVE",
    assessed_value := 300000, just_value := 280000 }

/-- Scenario D valuation: just value 50,000 (other numerics default 0). -/
def scenarioD_bcpao : Bcpao :=
  { parcel_id := "2517790", owner_name := "JOHN DOE", address := "4127 ARLINGTON AVE",
    just_value := 50000 }

/-- The spec's lower-case classifier example, as a full record. -/
def exSunsetLower : PLien :=
  { type := "LIEN", grantor := "sunset Homeowners association",
    recorded_date := 20230320, amount := 5000 }

/-- The spec's upper-case classifier example, with different amount and date. -/
def exSunsetUpper : PLien :=
  { type := "LIEN", grantor := "SUNSET HOMEOWNERS ASSOCIATION",
    recorded_date := 20240101, amount := 1 }

/-- The spec's negative classifier example. -/
def exWellsFargo : PLien :=
  { type := "MTG", grantor := "Wells Fargo Bank NA",
    recorded_date := 20230115, amount := 250000 }

/-- The same creditor on a different record type, amount and date. -/
def exWellsFargoJudg : PLien :=
  { type := "JUDG", grantor := "Wells Fargo Bank NA",
    recorded_date := 19990101, amount := 7 }

/-! ## Helper lemmas -/

/-- The classification writes `is_hoa` on both branches, so the flag is
exactly the keyword test on the creditor text. -/
theorem detectHoa_is_hoa (l : PLien) :
    (detectHoa l).is_hoa = isHoaCreditor l.grantor := by
  by_cases h : isHoaCreditor l.grantor <;> simp [detectHoa, h]

/-- Every record of `rankFrom n l` carries a priority position above `n`. -/
theorem mem_rankFrom_lt (x : PLien) (l : List PLien) :
    ∀ n : Nat, x ∈ Analyze.rankFrom n l → n < x.priority_position := by
  induction l with
  | nil => intro n h; simp [Analyze.rankFrom] at h
  | cons a t ih =>
    intro n h
    rw [Analyze.rankFrom] at h
    rcases List.mem_cons.mp h with rfl | h2
    · simp
    · exact Nat.lt_of_succ_lt (ih (n + 1) h2)

/-- `first_position` is exactly the rank-1 member of the mortgage bucket. -/
theorem firstPosition_eq_some_iff (liens : List PLien) (x : PLien) :
    Analyze.firstPosition liens = some x ↔
      x ∈ Analyze.mortgages liens ∧ x.priority_position = 1 := by
  cases liens with
  | nil => simp [Analyze.firstPosition, Analyze.mortgages, Analyze.ranked, Analyze.rankFrom]
  | cons a t =>
    have hr : Analyze.ranked (a :: t) =
        { a with priority_position := 1 } :: Analyze.rankFrom 1 t := rfl
    unfold Analyze.firstPosition Analyze.mortgages
    rw [hr]
    cases hb : (({ a with priority_position := 1 } : PLien).type == "MTG") with
    | false =>
      simp only [hb, Bool.false_eq_true, if_false, List.filter_cons, cond_false]
      constructor
      · intro h; exact absurd h (by simp)
      · rintro ⟨hmem, hrank⟩
        have := mem_rankFrom_lt x _ 1 (List.mem_of_mem_filter hmem)
        omega
    | true =>
      simp only [hb, if_true, List.filter_cons, cond_true]
      constructor
      · rintro h
        obtain rfl : { a with priority_position := 1 } = x := by simpa using h
        exact ⟨List.mem_cons_self _ _, rfl⟩
      · rintro ⟨hmem, hrank⟩
        rcases List.mem_cons.mp hmem with rfl | h2
        · rfl
        · have := mem_rankFrom_lt x _ 1 (List.mem_of_mem_filter h2)
          omega

/-- Ranking a list of `n` records starting at `n₀` assigns exactly the
positions `n₀+1, …, n₀+n`, in order. -/
theorem rankFrom_map_rank (l : List PLien) :
    ∀ n : Nat, (Analyze.rankFrom n l).map (·.priority_position) =
      List.range' (n + 1) l.length := by
  induction l with
  | nil => intro n; rfl
  | cons a t ih =>
    intro n
    simp [Analyze.rankFrom, List.range'_succ, ih]

/-- Stability of one ordered insertion: a record inserted with the
non-strict date order lands before every record of the same date, so the
same-date sublist gains the new record at its front and is otherwise
untouched. -/
theorem filter_orderedInsert_date (d : Nat) (a : PLien) (l : List PLien) :
    (List.orderedInsert dateLE a l).filter (fun x => x.recorded_date == d) =
      if a.recorded_date = d then
        a :: l.filter (fun x => x.recorded_date == d)
      else l.filter (fun x => x.recorded_date == d) := by
  induction l with
  | nil =>
    by_cases h : a.recorded_date = d <;> simp [List.orderedInsert, h]
  | cons b t ih =>
    simp only [List.orderedInsert]
    by_cases hab : dateLE a b
    · rw [if_pos hab]
      by_cases h : a.recorded_date = d <;> simp [h, List.filter_cons]
    · rw [if_neg hab]
      have hb : b.recorded_date < a.recorded_date := Nat.lt_of_not_le hab
      by_cases h : a.recorded_date = d
      · have hbd : ¬ b.recorded_date = d := by omega
        simp [List.filter_cons, h, hbd, ih]
      · simp [List.filter_cons, h, ih]

/-- Stability of the date sort: records of any one recorded date keep
their input order. -/
theorem filter_sortLiens_date (d : Nat) (l : List PLien) :
    (sortLiens l).filter (fun x => x.recorded_date == d) =
      l.filter (fun x => x.recorded_date == d) := by
  induction l with
  | nil => rfl
  | cons a t ih =>
    simp only [sortLiens, List.insertionSort] at ih ⊢
    rw [filter_orderedInsert_date]
    by_cases h : a.recorded_date = d <;> simp [h, List.filter_cons, ih]

/-! ## The claims -/

/-- C1: for every document list and valuation, `_combine_results` derives
its recommendation exactly as the spec's decision table prescribes —
`arv = max(assessed_value, just_value)`,
`equity = arv * 0.70 − total_encumbrance − 10000`, then top-to-bottom,
first match wins: positive priority-risk count → Skip; equity below
10,000 → Skip; mortgage count above 2 → Review; otherwise Bid. -/
theorem recommendation_follows_decision_table (b : Bcpao) (docs : List AgentLien) :
    ((combine_results b { success := true, agent_documents := docs }).investment_analysis).map
        (·.recommendation) =
      some (specDecisionTable (docs.filter (·.hoa_lien)).length
        (specEquityEstimate b.assessed_value b.just_value ((docs.map (·.amount)).sum))
        (docs.filter (fun l => l.document_type == "MTG")).length) := by
  have key : Combine.recommendation b docs =
      specDecisionTable (docs.filter (·.hoa_lien)).length
        (specEquityEstimate b.assessed_value b.just_value ((docs.map (·.amount)).sum))
        (docs.filter (fun l => l.document_type == "MTG")).length := by
    simp only [Combine.recommendation, specDecisionTable, Combine.hoaLiens, Combine.mortgages,
      Combine.maxBidEquity, Combine.arv, Combine.totalEncumbrance, specEquityEstimate]
    by_cases hr : docs.filter (fun l => l.hoa_lien) = [] <;> simp [hr, List.length_pos]
  simp [combine_results, key]

/-- C2 counterexample: the analyzed set `[cexHoaLien, cexMortgage]` (a
lien recorded before a mortgage, already in ascending date order)
contains a Mortgage record, yet `analyze_lien_priority` leaves
`first_position = None`, because the source assigns it only when the
record at index 0 is the mortgage. -/
theorem first_position_iff_mortgage_counterexample :
    (analyze_lien_priority [cexHoaLien, cexMortgage]).mortgages ≠ [] ∧
    (analyze_lien_priority [cexHoaLien, cexMortgage]).first_position = none := by
  decide

/-- C2 (amended): in `analyze_lien_priority`, `first_position` is
defined iff the record with priority rank 1 (the earliest-analyzed
record) is a Mortgage, and when defined it is exactly that record —
equivalently, `first_position = some x` iff `x` is a member of the
mortgage bucket with `priority_position = 1`.  In `_combine_results`,
`first_position` is the head of the mortgage sublist in document order
(defined iff at least one Mortgage document exists). -/
theorem first_position_rank_one_mortgage :
    (∀ (liens : List PLien) (x : PLien),
      (analyze_lien_priority liens).first_position = some x ↔
        x ∈ (analyze_lien_priority liens).mortgages ∧ x.priority_position = 1) ∧
    (∀ (b : Bcpao) (docs : List AgentLien),
      ((combine_results b { success := true, agent_documents := docs }).lien_analysis).map
        (·.first_position) = some ((docs.filter (fun l => l.document_type == "MTG")).head?)) := by
  constructor
  · intro liens x
    simpa [analyze_lien_priority] using firstPosition_eq_some_iff liens x
  · intro b docs
    rfl

/-- C3: for every record list, the analyzed set — the date-sorted list
as ranked by `analyze_lien_priority` — carries priority positions that
are exactly `1..N` in order (no gaps, no duplicates); and the date sort
is a permutation of the input, sorted by ascending recorded date, with
records of equal recorded date keeping their input order (stability,
stated as invariance of every equal-date sublist). -/
theorem priority_rank_contiguous_stable_sort (liens : List PLien) :
    (Analyze.ranked (sortLiens liens)).map (·.priority_position) =
      List.range' 1 liens.length ∧
    (sortLiens liens).Perm liens ∧
    (sortLiens liens).Sorted dateLE ∧
    ∀ d : Nat, (sortLiens liens).filter (fun x => x.recorded_date == d) =
      liens.filter (fun x => x.recorded_date == d) := by
  refine ⟨?_, List.perm_insertionSort dateLE liens,
    List.sorted_insertionSort dateLE liens, fun d => filter_sortLiens_date d liens⟩
  rw [Analyze.ranked, rankFrom_map_rank]
  congr 1
  exact (List.perm_insertionSort dateLE liens).length_eq

/-- C4 counterexample: two records carry the risk flag, yet
`_combine_results` emits a single Critical-severity warning for them,
not one per flagged record as the claim states (the mortgage-count and
equity conditions do not fire on this input). -/
theorem warnings_per_record_counterexample :
    ([cexDoc1, cexDoc2].filter (·.hoa_lien)).length = 2 ∧
    ((combine_results cexBcpao
        { success := true, agent_documents := [cexDoc1, cexDoc2] }).investment_analysis).map
      (fun ia => (ia.warnings.filter (fun w => w.severity == Severity.critical)).length) =
      some 1 := by
  constructor
  · decide
  · simp [combine_results, Combine.warnings, Combine.hoaLiens, Combine.mortgages,
      Combine.maxBidEquity, Combine.arv, Combine.totalEncumbrance, cexDoc1, cexDoc2, cexBcpao]

/-- C4 (amended): the warnings of `_combine_results` are, independently
raised and in this fixed order — one aggregate `HOA_FORECLOSURE_RISK`
warning of severity Critical if at least one record is risk-flagged,
carrying the list (and count) of all flagged records; one
`COMPLEX_TITLE` warning of severity Medium if the mortgage count
exceeds 2, carrying the count; and one `INSUFFICIENT_EQUITY` warning of
severity High if the equity estimate is below 10,000. -/
theorem warnings_aggregate_fixed_order (b : Bcpao) (docs : List AgentLien) :
    ((combine_results b { success := true, agent_documents := docs }).investment_analysis).map
        (·.warnings) =
      some (specWarnings (docs.filter (·.hoa_lien))
        (docs.filter (fun l => l.document_type == "MTG")).length
        (specEquityEstimate b.assessed_value b.just_value ((docs.map (·.amount)).sum))) := by
  rfl

/-- C5: the priority-risk classification is a case-insensitive substring
match of the fixed keyword set against the creditor field only — a pure
function of the creditor text, independent of every other field — and on
the spec's three examples it yields true, true, false. -/
theorem classifier_case_insensitive_pure :
    (∀ l₁ l₂ : PLien, l₁.grantor = l₂.grantor →
      (detectHoa l₁).is_hoa = (detectHoa l₂).is_hoa) ∧
    (∀ l : PLien, l.grantor = "sunset Homeowners association" →
      (detectHoa l).is_hoa = true) ∧
    (∀ l : PLien, l.grantor = "SUNSET HOMEOWNERS ASSOCIATION" →
      (detectHoa l).is_hoa = true) ∧
    (∀ l : PLien, l.grantor = "Wells Fargo Bank NA" →
      (detectHoa l).is_hoa = false) := by
  refine ⟨fun l₁ l₂ h => by rw [detectHoa_is_hoa, detectHoa_is_hoa, h], ?_, ?_, ?_⟩ <;>
    intro l h <;> rw [detectHoa_is_hoa, h] <;> decide

/-- C5 witness: the three example creditors at concrete records — the
two HOA spellings flag regardless of differing amounts and dates, the
bank does not. -/
theorem classifier_examples_witness :
    (detectHoa exSunsetLower).is_hoa = true ∧
    (detectHoa exSunsetUpper).is_hoa = true ∧
    (detectHoa exWellsFargo).is_hoa = false ∧
    (detectHoa exWellsFargo).is_hoa = (detectHoa exWellsFargoJudg).is_hoa :=
  ⟨classifier_case_insensitive_pure.2.1 _ rfl,
   classifier_case_insensitive_pure.2.2.1 _ rfl,
   classifier_case_insensitive_pure.2.2.2 _ rfl,
   classifier_case_insensitive_pure.1 _ _ rfl⟩

/-- C6: `total_encumbrance` is the sum of the `amount` fields over all
records of every type, in `analyze_lien_priority` and in
`_combine_results` alike, and it is invariant under any permutation of
the record set. -/
theorem total_encumbrance_sum_perm_invariant :
    (∀ liens : List PLien,
      (analyze_lien_priority liens).total_encumbrance = (liens.map (·.amount)).sum) ∧
    (∀ (b : Bcpao) (docs : List AgentLien),
      ((combine_results b { success := true, agent_documents := docs }).lien_analysis).map
        (·.total_encumbrance) = some ((docs.map (·.amount)).sum)) ∧
    (∀ l₁ l₂ : List PLien, l₁.Perm l₂ →
      (analyze_lien_priority l₁).total_encumbrance =
        (analyze_lien_priority l₂).total_encumbrance) := by
  refine ⟨fun liens => rfl, fun b docs => rfl, fun l₁ l₂ h => ?_⟩
  simp only [analyze_lien_priority, Analyze.totalEncumbrance]
  exact (h.map (·.amount)).sum_eq

/-- C6 witness: the two concrete records in either order give the same
total encumbrance. -/
theorem total_encumbrance_perm_witness :
    (analyze_lien_priority [cexHoaLien, cexMortgage]).total_encumbrance =
      (analyze_lien_priority [cexMortgage, cexHoaLien]).total_encumbrance :=
  total_encumbrance_sum_perm_invariant.2.2 _ _ (List.Perm.swap cexMortgage cexHoaLien [])

/-- C7: amount parsing strips the dollar sign and thousands separators
before numeric conversion; every string whose cleaned form still fails
to parse yields 0 instead of raising; `"$250,000"` parses to 250000 and
`"invalid"` to 0. -/
theorem parse_amount_strips_and_defaults :
    cleanAmount "$250,000" = "250000" ∧
    (∀ s : String, parseFloatQ (cleanAmount s) = none → parse_amount s = 0) ∧
    parse_amount "$250,000" = 250000 ∧
    parse_amount "invalid" = 0 := by
  refine ⟨by decide, ?_, by decide, by decide⟩
  intro s h
  simp [parse_amount, h]

/-- C7 witness: a concrete unparseable string falls back to 0. -/
theorem parse_amount_failure_witness : parse_amount "abc" = 0 :=
  parse_amount_strips_and_defaults.2.1 "abc" (by decide)

/-- C8: the empty record set is a valid input — its analysis has every
count zero, zero total encumbrance, no warnings and no first position —
and combining it with a valuation of just value 50,000 yields an equity
estimate of 25,000 and the recommendation Bid. -/
theorem empty_record_set_analysis :
    analyze_lien_priority ([] : List PLien) =
      { total_liens := 0, total_encumbrance := 0, first_position := none, hoa_liens := [],
        mortgages := [], judgments := [], warnings := [], encumbrance_summary := none } ∧
    (combine_results scenarioD_bcpao { success := true, agent_documents := [] }).lien_analysis =
      some { total_liens := 0, total_encumbrance := 0, mortgages := 0, other_liens := 0,
             judgments := 0, hoa_liens := 0, first_position := none } ∧
    ((combine_results scenarioD_bcpao
        { success := true, agent_documents := [] }).investment_analysis).map
      (fun ia => (ia.max_bid_equity_70pct, ia.recommendation, ia.warnings)) =
      some (25000, Recommendation.BID, []) := by
  refine ⟨?_, rfl, ?_⟩
  · simp [analyze_lien_priority, Analyze.totalEncumbrance, Analyze.firstPosition,
      Analyze.ranked, Analyze.rankFrom, Analyze.hoaLiens, Analyze.mortgages,
      Analyze.judgments, Analyze.warnings, Analyze.encumbranceSummary]
  · simp [combine_results, Combine.maxBidEquity, Combine.arv, Combine.totalEncumbrance,
      scenarioD_bcpao, Combine.recommendation, Combine.reason, Combine.hoaLiens,
      Combine.warnings, Combine.mortgages]
    norm_num

/-- C9: `search_liens` never propagates an exception — when the scrape
step raises (any exception text `e`), or the scrape response reports
failure, it returns the failure dictionary `{success: false, error,
address}` with the queried address, for every parser behaviour. -/
theorem search_liens_returns_error_dict (parse : String → Except String (List PLien))
    (addr : String) (pid : Option String) :
    (∀ e : String, search_liens (.error e) parse addr pid =
      { success := false, error := some e, address := addr }) ∧
    (∀ r : ScrapeData, r.success = false →
      search_liens (.ok r) parse addr pid =
        { success := false, error := some (r.error.getD "Unknown error"),
          address := addr }) := by
  constructor
  · intro e; rfl
  · intro r h
    simp [search_liens, h, Bind.bind, Except.bind, Pure.pure, Except.pure]

/-- C9 witness: a concrete failed scrape (no error text in the response)
returns the failure dictionary with the default error string. -/
theorem search_liens_failure_witness :
    search_liens (.ok { success := false }) (fun _ => .ok []) "4127 ARLINGTON AVE" none =
      { success := false, error := some "Unknown error", address := "4127 ARLINGTON AVE" } :=
  (search_liens_returns_error_dict (fun _ => .ok []) "4127 ARLINGTON AVE" none).2
    { success := false } rfl

/-- C10: in `analyze_lien_priority`, only records of type `LIEN` with
the `is_hoa` flag reach the `hoa_liens` bucket, and every
`HOA_FORECLOSURE_RISK` warning carries such a record — so an `MTG` or
`JUDG` record never lands in the bucket and never produces an HOA-risk
warning, whatever its creditor text and flag. -/
theorem hoa_risk_only_from_lien_records (liens : List PLien) :
    (∀ x ∈ (analyze_lien_priority liens).hoa_liens, x.type = "LIEN" ∧ x.is_hoa = true) ∧
    (∀ w ∈ (analyze_lien_priority liens).warnings, w.wtype = "HOA_FORECLOSURE_RISK" →
      ∃ x, w.lien = some x ∧ x.type = "LIEN" ∧ x.is_hoa = true) := by
  constructor
  · intro x hx
    simp [analyze_lien_priority, Analyze.hoaLiens, List.mem_filter] at hx
    exact ⟨hx.2.1, hx.2.2⟩
  · intro w hw htype
    simp [analyze_lien_priority, Analyze.warnings, List.mem_append] at hw
    rcases hw with ⟨x, hx, rfl⟩ | hmtg
    · simp [Analyze.hoaLiens, List.mem_filter] at hx
      exact ⟨x, rfl, hx.2.1, hx.2.2⟩
    · rcases hmtg with ⟨-, rfl⟩
      simp at htype

/-- C10 witness: on a set holding an HOA-flagged mortgage and an
HOA-flagged lien, the bucket member (the ranked lien record) is of type
`LIEN` with the flag set. -/
theorem hoa_risk_lien_witness :
    ({ cexHoaLien with priority_position := 2 }).type = "LIEN" ∧
    ({ cexHoaLien with priority_position := 2 }).is_hoa = true :=
  (hoa_risk_only_from_lien_records [cexHoaMortgage, cexHoaLien]).1 _ (by decide)

end BidDeed
